import Mathlib

/-!
Shallow embedding of the ledger-and-reconciliation core of
`src/app_final.py` (APPAGMCONTROL): milk traceability, livestock
productivity and fuel control ledgers.

Modelling conventions:
* every numeric form field (`st.number_input`) is embedded as a rational
  number `ℚ` (the spec's numeric semantics treats quantities as
  non-negative reals);
* dates are opaque (`Nat`), since no claim computes with them;
* a ledger table is a `List` of records in insertion order, matching the
  `DataFrame` rows with the default `RangeIndex`;
* the durable CSV file plus the `st.cache_data` read cache of one ledger
  are embedded as a `Store` state: `disk` abstracts the file contents
  (the table it serialises), `cache` the memoised result of the ledger's
  `load_data_*` function;
* the form-submit handlers become `Except`-returning record builders
  (`st.error` branches become `Except.error`);
* `pd.DataFrame.groupby` sorts the group keys (its default); the string
  order pandas uses on keys is lexicographic by code point, embedded
  below as `strLe`.
-/

namespace AppAgm

/-- Row of `data_leche.csv` (columns fixed at `load_data_leche`). -/
structure MilkRecord where
  Fecha : Nat
  ID_Lote : String
  Vol_Entregado : ℚ
  Vol_Pesado : ℚ
  Vol_Vendido : ℚ
  Perdida_Pesaje : ℚ
  Perdida_Venta : ℚ
  Perdida_Total : ℚ
  deriving DecidableEq, Repr

/-- Row of `data_gasolina.csv` (columns fixed at `load_data_gasolina`). -/
structure FuelRecord where
  Fecha : Nat
  ID_Ruta : String
  Litros_Cargados : ℚ
  Costo_Litro : ℚ
  Km_Recorridos : ℚ
  Gasto_Total : ℚ
  Eficiencia_Km_Litro : ℚ
  deriving DecidableEq, Repr

/-- Row of `data_ganado.csv` (columns fixed at `load_data_ganado`). -/
structure LivestockRecord where
  Fecha : Nat
  ID_Animal : String
  Nombre_Animal : String
  Raza : String
  Litros_Pesados : ℚ
  deriving DecidableEq, Repr

/-- Milk form-submit handler (lines 105-133 of `app_final.py`): validates
the raw volumes, then builds the new row with the derived loss fields
`Perdida_Pesaje = entregado - pesado`, `Perdida_Venta = pesado - vendido`,
`Perdida_Total = entregado - vendido`. Error branches are the two
`st.error` messages, in source order. -/
def buildLeche (fecha : Nat) (id_lote : String)
    (vol_entregado vol_pesado vol_vendido : ℚ) : Except String MilkRecord :=
  if vol_pesado > vol_entregado ∨ vol_vendido > vol_pesado then
    Except.error "El volumen pesado no puede ser mayor al entregado, ni el vendido mayor al pesado."
  else if id_lote = "" then
    Except.error "El ID o Nombre del Lote es obligatorio."
  else
    Except.ok
      { Fecha := fecha
        ID_Lote := id_lote
        Vol_Entregado := vol_entregado
        Vol_Pesado := vol_pesado
        Vol_Vendido := vol_vendido
        Perdida_Pesaje := vol_entregado - vol_pesado
        Perdida_Venta := vol_pesado - vol_vendido
        Perdida_Total := vol_entregado - vol_vendido }

/-- Fuel form-submit handler (lines 341-363 of `app_final.py`): validates
route id and the liters/kilometers combination, then builds the new row
with `Gasto_Total = litros * costo_litro` and
`Eficiencia_Km_Litro = km / litros` when `litros > 0`, else `0`.
Error branches are the three `st.error` messages, in source order. -/
def buildGasolina (fecha : Nat) (id_ruta : String)
    (litros_cargados costo_litro km_recorridos : ℚ) : Except String FuelRecord :=
  if id_ruta = "" then
    Except.error "El ID de la Ruta es obligatorio para el seguimiento."
  else if km_recorridos = 0 ∧ litros_cargados > 0 then
    Except.error "Los Kilometros Recorridos deben ser mayores a cero para calcular la eficiencia si se cargo combustible."
  else if litros_cargados = 0 ∧ km_recorridos > 0 then
    Except.error "Se requiere cargar litros para calcular la eficiencia del recorrido."
  else
    Except.ok
      { Fecha := fecha
        ID_Ruta := id_ruta
        Litros_Cargados := litros_cargados
        Costo_Litro := costo_litro
        Km_Recorridos := km_recorridos
        Gasto_Total := litros_cargados * costo_litro
        Eficiencia_Km_Litro :=
          if litros_cargados > 0 then km_recorridos / litros_cargados else 0 }

/-- The closed breed list of the livestock form selectbox
(line 222 of `app_final.py`). -/
def raza_options : List String := ["Holstein", "Jersey", "Pardo Suizo", "Gyr", "Otra"]

/-- Selectbox default position (line 223 of `app_final.py`):
`raza_options.index(last_raza) if last_raza in raza_options else 4`. -/
def raza_index (last_raza : String) : Nat :=
  if last_raza ∈ raza_options then raza_options.indexOf last_raza else 4

/-- The breed value the selectbox presents for a supplied breed value:
the option at position `raza_index` (the selectbox can only yield
elements of `raza_options`). -/
def selected_raza (last_raza : String) : String :=
  raza_options.getD (raza_index last_raza) "Otra"

/-- Livestock form-submit handler (lines 232-247 of `app_final.py`):
requires a non-empty animal id; the breed stored is the selectbox value,
whose position for a supplied breed is `raza_index` (lines 215-226), so a
supplied breed outside `raza_options` lands on the sentinel `"Otra"`. -/
def buildGanado (fecha : Nat) (id_animal nombre_animal raza : String)
    (litros_pesados : ℚ) : Except String LivestockRecord :=
  if id_animal = "" then
    Except.error "El ID Unico del Animal es obligatorio."
  else
    Except.ok
      { Fecha := fecha
        ID_Animal := id_animal
        Nombre_Animal := nombre_animal
        Raza := selected_raza raza
        Litros_Pesados := litros_pesados }

/-- One ledger's durable file plus its `st.cache_data` cache. `disk`
is `none` when the CSV file does not exist; `cache` is `none` when the
cache entry is invalid (cleared or never filled). -/
structure Store (α : Type) where
  disk : Option (List α)
  cache : Option (List α)
  deriving DecidableEq

/-- A ledger's `load_data_*` function (lines 19-52 of `app_final.py`)
under `@st.cache_data`: return the cached table when the cache is valid;
otherwise read the file when it exists (empty table with the fixed schema
when it does not) and memoise the result. -/
def load {α : Type} (s : Store α) : List α × Store α :=
  match s.cache with
  | some t => (t, s)
  | none =>
    match s.disk with
    | some t => (t, { s with cache := some t })
    | none => ([], { s with cache := some [] })

/-- The `save_data_and_rerun` function (lines 55-66 of `app_final.py`):
`df.to_csv` overwrites the durable file with the full table, then the
ledger's `load_data_*.clear()` evicts its cache entry. -/
def persist {α : Type} (t : List α) (s : Store α) : Store α :=
  { s with disk := some t, cache := none }

/-- The complete milk submit flow: build the record; on validation error
the state is untouched, otherwise the new row is appended to the loaded
table and the result persisted (lines 105-133 of `app_final.py`). -/
def submitLeche (fecha : Nat) (id_lote : String)
    (vol_entregado vol_pesado vol_vendido : ℚ) (s : Store MilkRecord) :
    Store MilkRecord :=
  match buildLeche fecha id_lote vol_entregado vol_pesado vol_vendido with
  | Except.error _ => s
  | Except.ok r =>
    let p := load s
    persist (p.1 ++ [r]) p.2

/-- Row deletion handler, common shape of the three ledgers (lines
181-190, 298-307 and 424-433 of `app_final.py`): the display index
`ID_Fila` of a row is its position in the in-memory table, the handler
drops the rows whose position is in the selection and
`reset_index(drop=True)` renumbers the remainder from 0. In the list
embedding renumbering is implicit, so the result is the positions-not-
selected subsequence. -/
def deleteRows {α : Type} (l : List α) (ps : List Nat) : List α :=
  (l.enum.filter (fun p => decide (¬ p.1 ∈ ps))).map Prod.snd

/-- Spec-side description of deletion, following the words of the C9
claim sources: the table containing exactly the rows whose 0-based
position is not in the deleted set, in position order. -/
def survivorsSpec {α : Type} (l : List α) (ps : List Nat) : List α :=
  ((List.range l.length).filter (fun i => decide (¬ i ∈ ps))).filterMap
    (fun i => l[i]?)

/-- Lexicographic code-point order on strings, the key order pandas uses
when `groupby` sorts the group keys. -/
def charListLe : List Char → List Char → Bool
  | [], _ => true
  | _ :: _, [] => false
  | a :: as, b :: bs =>
    if a.toNat < b.toNat then true
    else if b.toNat < a.toNat then false
    else charListLe as bs

/-- Propositional form of `charListLe` on strings. -/
def strLe (a b : String) : Prop := charListLe a.data b.data = true

instance : DecidableRel strLe := fun _ _ => inferInstanceAs (Decidable (_ = true))

/-- The group `df_ganado[df_ganado.ID_Animal == id]` of one animal, in
insertion order. -/
def groupFor (l : List LivestockRecord) (id : String) : List LivestockRecord :=
  l.filter (fun r => r.ID_Animal == id)

/-- One output row of the `produccion_media` aggregation (lines 255-261
of `app_final.py`): per animal id, the aggregations
`Nombre = last Nombre_Animal`, `Raza = last Raza`,
`Total_Pesado = sum Litros_Pesados`, `Promedio_Diario = mean`,
`Total_Registros = count`. -/
structure Summary where
  ID_Animal : String
  Nombre : String
  Raza : String
  Total_Pesado : ℚ
  Promedio_Diario : ℚ
  Total_Registros : Nat
  deriving DecidableEq, Repr

/-- The aggregations of `produccion_media` for one animal id. -/
def summaryFor (l : List LivestockRecord) (id : String) : Summary :=
  let g := groupFor l id
  { ID_Animal := id
    Nombre := ((g.map LivestockRecord.Nombre_Animal).getLast?).getD ""
    Raza := ((g.map LivestockRecord.Raza).getLast?).getD ""
    Total_Pesado := (g.map LivestockRecord.Litros_Pesados).sum
    Promedio_Diario := (g.map LivestockRecord.Litros_Pesados).sum / (g.length : ℚ)
    Total_Registros := g.length }

/-- The output order of `produccion_media`:
`sort_values(by=Promedio_Diario, ascending=False)`. -/
def byMeanDesc (a b : Summary) : Prop := b.Promedio_Diario ≤ a.Promedio_Diario

instance : DecidableRel byMeanDesc := fun _ _ =>
  inferInstanceAs (Decidable (_ ≤ _))

instance : IsTotal Summary byMeanDesc :=
  ⟨fun a b => le_total b.Promedio_Diario a.Promedio_Diario⟩

instance : IsTrans Summary byMeanDesc :=
  ⟨fun _ _ _ h1 h2 => le_trans h2 h1⟩

/-- The `produccion_media` aggregation (lines 255-261 of `app_final.py`):
group the ledger by animal id (`groupby` sorts the keys), apply the
per-group aggregations and sort the rows by descending mean. -/
def summarize (l : List LivestockRecord) : List Summary :=
  let ids := List.insertionSort strLe (l.map LivestockRecord.ID_Animal).dedup
  List.insertionSort byMeanDesc (ids.map (summaryFor l))

/-- Concrete livestock ledger of the C1 claim: records (A,5), (A,7),
(B,10) in insertion order. -/
def ganadoExample : List LivestockRecord :=
  [{ Fecha := 1, ID_Animal := "A", Nombre_Animal := "Ana", Raza := "Holstein", Litros_Pesados := 5 },
   { Fecha := 2, ID_Animal := "A", Nombre_Animal := "Ana", Raza := "Holstein", Litros_Pesados := 7 },
   { Fecha := 3, ID_Animal := "B", Nombre_Animal := "Bella", Raza := "Jersey", Litros_Pesados := 10 }]

/-- Expected summary row for animal A: sum 12, mean 6, count 2. -/
def summaryA : Summary :=
  { ID_Animal := "A", Nombre := "Ana", Raza := "Holstein",
    Total_Pesado := 12, Promedio_Diario := 6, Total_Registros := 2 }

/-- Expected summary row for animal B: sum 10, mean 10, count 1. -/
def summaryB : Summary :=
  { ID_Animal := "B", Nombre := "Bella", Raza := "Jersey",
    Total_Pesado := 10, Promedio_Diario := 10, Total_Registros := 1 }

/-- C1: `summarize` yields one row per distinct animal id (up to
permutation its ids are exactly the distinct ids of the ledger), every
row carries exactly the per-id aggregations (most-recent name and breed,
sum, mean, count of weighed volumes), the output is sorted by descending
mean, and on the ledger [(A,5),(A,7),(B,10)] it yields B (sum 10, mean
10, count 1) before A (sum 12, mean 6, count 2). -/
theorem summarize_livestock_correct :
    (∀ l : List LivestockRecord,
      ((summarize l).map Summary.ID_Animal).Perm
        ((l.map LivestockRecord.ID_Animal).dedup)) ∧
    (∀ (l : List LivestockRecord) (s : Summary),
      s ∈ summarize l → s = summaryFor l s.ID_Animal) ∧
    (∀ l : List LivestockRecord, (summarize l).Sorted byMeanDesc) ∧
    summarize ganadoExample = [summaryB, summaryA] := by
  refine ⟨fun l => ?_, fun l s hs => ?_, fun l => List.sorted_insertionSort byMeanDesc _, ?_⟩
  · have h1 : (summarize l).Perm
        ((List.insertionSort strLe (l.map LivestockRecord.ID_Animal).dedup).map
          (summaryFor l)) := List.perm_insertionSort _ _
    have h2 := h1.map Summary.ID_Animal
    rw [List.map_map] at h2
    have h3 : (Summary.ID_Animal ∘ summaryFor l) = id := by
      funext i; rfl
    rw [h3, List.map_id] at h2
    exact h2.trans (List.perm_insertionSort _ _)
  · have h1 := (List.perm_insertionSort byMeanDesc _).subset hs
    obtain ⟨i, _, rfl⟩ := List.mem_map.1 h1
    rfl
  · simp [summarize, summaryFor, groupFor, byMeanDesc, List.insertionSort,
      List.orderedInsert, List.dedup, List.pwFilter, strLe, charListLe,
      ganadoExample, summaryA, summaryB]
    norm_num

/-- Witness for C1: the row of animal B in the example output carries
exactly B's aggregations. -/
theorem summarize_livestock_correct_witness :
    summaryB = summaryFor ganadoExample summaryB.ID_Animal :=
  summarize_livestock_correct.2.1 ganadoExample summaryB
    (by rw [summarize_livestock_correct.2.2.2]; exact List.mem_cons_self _ _)

/-- C2: for valid milk inputs with delivered at least weighed at least
sold at least 0, the builder accepts and computes the three losses by
subtraction, the weighing and sale losses add up to the total loss
exactly, and all three losses are nonnegative. -/
theorem milk_losses_exact (fecha : Nat) (id_lote : String) (d w v : ℚ)
    (hid : id_lote ≠ "") (hw : w ≤ d) (hv : v ≤ w) (h0 : 0 ≤ v) :
    buildLeche fecha id_lote d w v = Except.ok
      { Fecha := fecha, ID_Lote := id_lote, Vol_Entregado := d, Vol_Pesado := w,
        Vol_Vendido := v, Perdida_Pesaje := d - w, Perdida_Venta := w - v,
        Perdida_Total := d - v } ∧
    (d - w) + (w - v) = d - v ∧
    0 ≤ d - w ∧ 0 ≤ w - v ∧ 0 ≤ d - v := by
  refine ⟨?_, by ring, by simpa using hw, by simpa using hv,
    by simpa using hv.trans hw⟩
  rw [buildLeche, if_neg, if_neg hid]
  push_neg
  exact ⟨hw, hv⟩

/-- Witness for C2 at delivered 10, weighed 8, sold 5. -/
theorem milk_losses_exact_witness :
    buildLeche 0 "L1" 10 8 5 = Except.ok
      { Fecha := 0, ID_Lote := "L1", Vol_Entregado := 10, Vol_Pesado := 8,
        Vol_Vendido := 5, Perdida_Pesaje := 10 - 8, Perdida_Venta := 8 - 5,
        Perdida_Total := 10 - 5 } ∧
    ((10 : ℚ) - 8) + (8 - 5) = 10 - 5 ∧
    (0 : ℚ) ≤ 10 - 8 ∧ (0 : ℚ) ≤ 8 - 5 ∧ (0 : ℚ) ≤ 10 - 5 :=
  milk_losses_exact 0 "L1" 10 8 5 (by decide) (by norm_num) (by norm_num)
    (by norm_num)

/-- C3: whenever weighed exceeds delivered or sold exceeds weighed, the
milk handler reports the volume validation error, and the submit flow
leaves the store (cache and durable file) untouched. -/
theorem milk_builder_rejects_impossible (fecha : Nat) (id_lote : String)
    (d w v : ℚ) (h : w > d ∨ v > w) :
    buildLeche fecha id_lote d w v = Except.error
      "El volumen pesado no puede ser mayor al entregado, ni el vendido mayor al pesado." ∧
    ∀ s : Store MilkRecord, submitLeche fecha id_lote d w v s = s := by
  have hb : buildLeche fecha id_lote d w v = Except.error
      "El volumen pesado no puede ser mayor al entregado, ni el vendido mayor al pesado." := by
    rw [buildLeche, if_pos h]
  exact ⟨hb, fun s => by rw [submitLeche, hb]⟩

/-- Witness for C3 at the claimed input (delivered 10, weighed 12,
sold 5). -/
theorem milk_builder_rejects_impossible_witness :
    buildLeche 0 "L1" 10 12 5 = Except.error
      "El volumen pesado no puede ser mayor al entregado, ni el vendido mayor al pesado." :=
  (milk_builder_rejects_impossible 0 "L1" 10 12 5 (Or.inl (by norm_num))).1

/-- C4: with a non-empty route id, the fuel builder fails exactly when
one of liters loaded and kilometers traveled is positive while the other
is zero. -/
theorem fuel_builder_invalid_iff (fecha : Nat) (id_ruta : String)
    (litros costo km : ℚ) (hid : id_ruta ≠ "") :
    (buildGasolina fecha id_ruta litros costo km).isOk = false ↔
      ((litros > 0 ∧ km = 0) ∨ (km > 0 ∧ litros = 0)) := by
  rw [buildGasolina, if_neg hid]
  by_cases h1 : km = 0 ∧ litros > 0
  · rw [if_pos h1]
    exact iff_of_true rfl (Or.inl ⟨h1.2, h1.1⟩)
  · rw [if_neg h1]
    by_cases h2 : litros = 0 ∧ km > 0
    · rw [if_pos h2]
      exact iff_of_true rfl (Or.inr ⟨h2.2, h2.1⟩)
    · rw [if_neg h2]
      refine iff_of_false (by simp [Except.isOk, Except.toBool]) ?_
      rintro (⟨hl, hk⟩ | ⟨hk, hl⟩)
      · exact h1 ⟨hk, hl⟩
      · exact h2 ⟨hl, hk⟩

/-- Witness for C4: (liters 0, km 50) and (liters 20, km 0) are rejected,
(liters 0, km 0) is accepted. -/
theorem fuel_builder_invalid_iff_witness :
    (buildGasolina 0 "R1" 0 1 50).isOk = false ∧
    (buildGasolina 0 "R1" 20 1 0).isOk = false ∧
    (buildGasolina 0 "R1" 0 1 0).isOk = true :=
  ⟨(fuel_builder_invalid_iff 0 "R1" 0 1 50 (by decide)).mpr
      (Or.inr (by norm_num)),
   (fuel_builder_invalid_iff 0 "R1" 20 1 0 (by decide)).mpr
      (Or.inl (by norm_num)),
   by rw [buildGasolina, if_neg (by decide), if_neg (by norm_num),
        if_neg (by norm_num)]; rfl⟩

/-- C5: every record the fuel builder accepts has total cost
liters times cost-per-liter, efficiency km over liters when liters is
positive, and efficiency exactly 0 when liters is zero. -/
theorem fuel_derived_fields (fecha : Nat) (id_ruta : String)
    (litros costo km : ℚ) (r : FuelRecord)
    (h : buildGasolina fecha id_ruta litros costo km = Except.ok r) :
    r.Gasto_Total = litros * costo ∧
    (0 < litros → r.Eficiencia_Km_Litro = km / litros) ∧
    (litros = 0 → r.Eficiencia_Km_Litro = 0) := by
  rw [buildGasolina] at h
  by_cases hid : id_ruta = ""
  · rw [if_pos hid] at h
    exact Except.noConfusion h
  · rw [if_neg hid] at h
    by_cases h1 : km = 0 ∧ litros > 0
    · rw [if_pos h1] at h
      exact Except.noConfusion h
    · rw [if_neg h1] at h
      by_cases h2 : litros = 0 ∧ km > 0
      · rw [if_pos h2] at h
        exact Except.noConfusion h
      · rw [if_neg h2, Except.ok.injEq] at h
        subst h
        refine ⟨rfl, fun hl => ?_, fun hz => ?_⟩
        · show (if litros > 0 then km / litros else 0) = km / litros
          rw [if_pos hl]
        · show (if litros > 0 then km / litros else 0) = 0
          rw [if_neg (by simp [hz])]

/-- Concrete accepted fuel record for the C5 witness: 20 liters at cost
3, 100 km, hence total cost 60 and efficiency 5. -/
def fuelRowExample : FuelRecord :=
  { Fecha := 0, ID_Ruta := "R1", Litros_Cargados := 20, Costo_Litro := 3,
    Km_Recorridos := 100, Gasto_Total := 60, Eficiencia_Km_Litro := 5 }

/-- Witness for C5 at liters 20, cost 3, km 100. -/
theorem fuel_derived_fields_witness :
    fuelRowExample.Gasto_Total = 20 * 3 ∧
    (0 < (20 : ℚ) → fuelRowExample.Eficiencia_Km_Litro = 100 / 20) ∧
    ((20 : ℚ) = 0 → fuelRowExample.Eficiencia_Km_Litro = 0) :=
  fuel_derived_fields 0 "R1" 20 3 100 fuelRowExample (by
    rw [buildGasolina, if_neg (by decide), if_neg (by norm_num),
      if_neg (by norm_num), if_pos (by norm_num)]
    norm_num [fuelRowExample])

/-- Membership of every selectbox outcome in the closed breed list. -/
theorem selected_raza_mem (s : String) : selected_raza s ∈ raza_options := by
  by_cases h : s ∈ raza_options
  · rw [selected_raza, raza_index, if_pos h]
    have hlt : raza_options.indexOf s < raza_options.length :=
      List.indexOf_lt_length.2 h
    rw [List.getD_eq_getElem _ _ hlt]
    exact List.getElem_mem hlt
  · rw [selected_raza, raza_index, if_neg h]
    decide

/-- C6: a supplied breed outside the closed list yields a record whose
breed is the sentinel "Otra", and every record the livestock builder
accepts carries a breed from the closed list (which contains the
sentinel). -/
theorem breed_defaults_to_otra (fecha : Nat) (id_animal nombre raza : String)
    (litros : ℚ) (hid : id_animal ≠ "") (hraza : ¬ raza ∈ raza_options) :
    buildGanado fecha id_animal nombre raza litros = Except.ok
      { Fecha := fecha, ID_Animal := id_animal, Nombre_Animal := nombre,
        Raza := "Otra", Litros_Pesados := litros } ∧
    ∀ (raza2 : String) (r2 : LivestockRecord),
      buildGanado fecha id_animal nombre raza2 litros = Except.ok r2 →
      r2.Raza ∈ raza_options := by
  constructor
  · have hs : selected_raza raza = "Otra" := by
      rw [selected_raza, raza_index, if_neg hraza]
      rfl
    rw [buildGanado, if_neg hid, hs]
  · intro raza2 r2 h2
    rw [buildGanado, if_neg hid, Except.ok.injEq] at h2
    subst h2
    exact selected_raza_mem raza2

/-- Witness for C6 at the unrecognised breed "Angus". -/
theorem breed_defaults_to_otra_witness :
    buildGanado 0 "V1" "Ana" "Angus" 5 = Except.ok
      { Fecha := 0, ID_Animal := "V1", Nombre_Animal := "Ana",
        Raza := "Otra", Litros_Pesados := 5 } :=
  (breed_defaults_to_otra 0 "V1" "Ana" "Angus" 5 (by decide) (by decide)).1

/-- C7: persisting a table and then loading the ledger returns exactly
the persisted table (all rows, same order); persist overwrote the file
and evicted the cache, so load re-reads the new file contents. -/
theorem persist_load_roundtrip {α : Type} (t : List α) (s : Store α) :
    (load (persist t s)).1 = t := rfl

/-- C8: when a ledger's cache already holds an old table, a load returns
that cached table, yet a load performed after a persist returns the newly
persisted data, because persist evicts the cache entry. -/
theorem persist_invalidates_cache {α : Type} (s : Store α) (t0 t : List α)
    (hc : s.cache = some t0) :
    (load s).1 = t0 ∧ (load (persist t (load s).2)).1 = t := by
  constructor
  · simp [load, hc]
  · rfl

/-- Concrete milk row for the C8 witness store. -/
def milkRowExample : MilkRecord :=
  { Fecha := 0, ID_Lote := "L1", Vol_Entregado := 10, Vol_Pesado := 9,
    Vol_Vendido := 8, Perdida_Pesaje := 1, Perdida_Venta := 1,
    Perdida_Total := 2 }

/-- Concrete store for the C8 witness: the cache still holds an old
one-row table while the disk holds an empty table. -/
def storeExample : Store MilkRecord :=
  { disk := some [], cache := some [milkRowExample] }

/-- Witness for C8: on `storeExample`, load yields the stale cached row,
and after persisting the empty table the next load yields the empty
table. -/
theorem persist_invalidates_cache_witness :
    (load storeExample).1 = [milkRowExample] ∧
    (load (persist [] (load storeExample).2)).1 = [] :=
  persist_invalidates_cache storeExample [milkRowExample] [] rfl

/-- Deletion agrees with the positions-not-selected description, proved
by induction from the back of the table. -/
theorem deleteRows_eq_survivorsSpec {α : Type} (l : List α) (ps : List Nat) :
    deleteRows l ps = survivorsSpec l ps := by
  induction l using List.reverseRecOn with
  | nil => rfl
  | append_singleton l a ih =>
    rw [deleteRows, survivorsSpec] at *
    rw [List.enum_append, List.filter_append, List.map_append, ih]
    rw [List.length_append, List.length_singleton, List.range_succ,
      List.filter_append, List.filterMap_append]
    congr 1
    · apply List.filterMap_congr
      intro i hi
      have hmem := (List.mem_filter.1 hi).1
      have hlt : i < l.length := List.mem_range.1 hmem
      rw [List.getElem?_append_left hlt]
    · have hget : (l ++ [a])[l.length]? = some a :=
        List.getElem?_concat_length l a
      by_cases hn : l.length ∈ ps
      · simp [hn, List.enumFrom]
      · simp [hn, List.enumFrom, hget]

/-- C9: deleting a non-empty set of valid positions returns the table of
exactly the rows not at those positions; in the list embedding the
remaining rows are renumbered contiguously from 0 by construction. -/
theorem delete_removes_exactly_positions {α : Type} (l : List α)
    (ps : List Nat) (hne : ps ≠ []) (hvalid : ∀ i ∈ ps, i < l.length) :
    deleteRows l ps = survivorsSpec l ps :=
  deleteRows_eq_survivorsSpec l ps

/-- Witness for C9: deleting position 1 from a 3-row table keeps exactly
the rows previously at positions 0 and 2, now at positions 0 and 1. -/
theorem delete_removes_exactly_positions_witness :
    deleteRows ["fila0", "fila1", "fila2"] [1] = ["fila0", "fila2"] := by
  have h := delete_removes_exactly_positions ["fila0", "fila1", "fila2"] [1]
    (by decide) (by decide)
  rw [h]
  decide

/-- C10: the rows surviving a delete appear in the same relative order as
before: the result is a sublist (order-preserving selection) of the
original table. -/
theorem delete_preserves_order {α : Type} (l : List α) (ps : List Nat) :
    (deleteRows l ps).Sublist l := by
  have h1 := (List.filter_sublist
    (p := fun p => decide (¬ p.1 ∈ ps)) l.enum).map Prod.snd
  rwa [List.enum_map_snd] at h1

end AppAgm
